import Mathlib

/-
  Shallow embedding of src/src/tusb_config.h (TinyUSB build-time configuration
  header for the SAMD5KMbox project).

  The header is pure preprocessor-time configuration resolution:
  - options guarded by an ifndef may be supplied by the external build
    environment (modelled as an Option value in the Overrides record); when
    absent, a default rule applies;
  - the MCU identity default is a priority cascade over platform hint macros
    (ARDUINO_ARCH_SAMD, ARDUINO_ARCH_RP2040, ARDUINO_ARCH_ESP32), modelled as
    Booleans in the Hints record;
  - unguarded defines are fixed values with no override mechanism;
  - CFG_TUH_DEVICE_MAX is derived from CFG_TUH_HUB by a C ternary on the
    truthiness of the hub count.
-/

namespace TUSB

/-- MCU profile symbols appearing in the header (OPT_MCU_NONE is the
absence-of-profile sentinel of the final else branch). -/
inductive MCU where
  | OPT_MCU_SAMD51
  | OPT_MCU_RP2040
  | OPT_MCU_ESP32S2
  | OPT_MCU_NONE
deriving DecidableEq, Repr

/-- OS abstraction symbols: OPT_OS_NONE is the default of line 26; the other
constructor stands for any externally supplied alternative symbol. -/
inductive OS where
  | OPT_OS_NONE
  | OPT_OS_FREERTOS
deriving DecidableEq, Repr

/-- Speed option symbols for CFG_TUD_MAX_SPEED (line 40). -/
inductive Speed where
  | OPT_MODE_DEFAULT_SPEED
  | OPT_MODE_FULL_SPEED
  | OPT_MODE_HIGH_SPEED
deriving DecidableEq, Repr

/-- The platform hint macros tested by the cascade on lines 14-22, as
Booleans: defined-ness of ARDUINO_ARCH_SAMD, ARDUINO_ARCH_RP2040 and
ARDUINO_ARCH_ESP32 in the build environment. -/
structure Hints where
  arduino_arch_samd : Bool
  arduino_arch_rp2040 : Bool
  arduino_arch_esp32 : Bool
deriving DecidableEq, Repr

/-- The externally suppliable values: exactly the options the header guards
with an ifndef (lines 13, 25, 29, 49, 53, 61). Options defined
unconditionally by the header have no field here, because the header gives
them no override mechanism. -/
structure Overrides where
  cfg_tusb_mcu : Option MCU
  cfg_tusb_os : Option OS
  cfg_tusb_debug : Option Nat
  cfg_tusb_mem_section : Option String
  cfg_tusb_mem_align : Option Nat
  cfg_tud_endpoint0_size : Option Nat
deriving DecidableEq, Repr

/-- The build environment supplies none of the guarded options. -/
def no_overrides : Overrides :=
  ⟨none, none, none, none, none, none⟩

/-- Lines 13-23: if CFG_TUSB_MCU is not externally defined, the hint cascade
selects SAMD51, then RP2040, then ESP32S2, else the OPT_MCU_NONE sentinel.
An external definition short-circuits the whole cascade. -/
def resolve_platform (o : Option MCU) (h : Hints) : MCU :=
  match o with
  | some m => m
  | none =>
    if h.arduino_arch_samd then MCU.OPT_MCU_SAMD51
    else if h.arduino_arch_rp2040 then MCU.OPT_MCU_RP2040
    else if h.arduino_arch_esp32 then MCU.OPT_MCU_ESP32S2
    else MCU.OPT_MCU_NONE

/-- Lines 25-27: CFG_TUSB_OS defaults to OPT_OS_NONE. -/
def resolve_os (o : Option OS) : OS :=
  o.getD OS.OPT_OS_NONE

/-- Lines 29-31: CFG_TUSB_DEBUG defaults to 0. -/
def resolve_debug_level (o : Option Nat) : Nat :=
  o.getD 0

/-- Lines 49-51: CFG_TUSB_MEM_SECTION defaults to the empty attribute
(ordinary memory). -/
def resolve_mem_section (o : Option String) : String :=
  o.getD ""

/-- Lines 53-55: CFG_TUSB_MEM_ALIGN defaults to aligned(4); the alignment is
modelled by its byte count. -/
def resolve_mem_align (o : Option Nat) : Nat :=
  o.getD 4

/-- Lines 61-63: CFG_TUD_ENDPOINT0_SIZE defaults to 64. -/
def resolve_endpoint0_size (o : Option Nat) : Nat :=
  o.getD 64

/-- Line 90: CFG_TUH_DEVICE_MAX is the C ternary (CFG_TUH_HUB ? 4 : 1); a C
condition is true exactly when the integer is nonzero. -/
def derive_host_device_capacity (hub_count : Nat) : Nat :=
  if hub_count ≠ 0 then 4 else 1

/-- The full set of constants the header leaves defined, one field per
define. -/
structure Config where
  cfg_tusb_mcu : MCU
  cfg_tusb_os : OS
  cfg_tusb_debug : Nat
  cfg_tud_enabled : Nat
  cfg_tuh_enabled : Nat
  cfg_tud_max_speed : Speed
  cfg_tusb_mem_section : String
  cfg_tusb_mem_align : Nat
  cfg_tud_endpoint0_size : Nat
  cfg_tud_hid : Nat
  cfg_tud_cdc : Nat
  cfg_tud_msc : Nat
  cfg_tud_midi : Nat
  cfg_tud_vendor : Nat
  cfg_tud_hid_ep_bufsize : Nat
  cfg_tuh_enumeration_bufsize : Nat
  cfg_tuh_hub : Nat
  cfg_tuh_cdc : Nat
  cfg_tuh_hid : Nat
  cfg_tuh_msc : Nat
  cfg_tuh_vendor : Nat
  cfg_tuh_device_max : Nat
deriving DecidableEq, Repr

/-- Preprocessing the whole header under a given build environment: guarded
options go through their override-or-default resolver, unguarded defines are
the literals of the source, and CFG_TUH_DEVICE_MAX is derived from the
already-resolved CFG_TUH_HUB (which is the literal 0 on line 83). -/
def resolveConfig (ov : Overrides) (h : Hints) : Config :=
  let hub : Nat := 0
  { cfg_tusb_mcu := resolve_platform ov.cfg_tusb_mcu h
    cfg_tusb_os := resolve_os ov.cfg_tusb_os
    cfg_tusb_debug := resolve_debug_level ov.cfg_tusb_debug
    cfg_tud_enabled := 1
    cfg_tuh_enabled := 1
    cfg_tud_max_speed := Speed.OPT_MODE_DEFAULT_SPEED
    cfg_tusb_mem_section := resolve_mem_section ov.cfg_tusb_mem_section
    cfg_tusb_mem_align := resolve_mem_align ov.cfg_tusb_mem_align
    cfg_tud_endpoint0_size := resolve_endpoint0_size ov.cfg_tud_endpoint0_size
    cfg_tud_hid := 3
    cfg_tud_cdc := 0
    cfg_tud_msc := 0
    cfg_tud_midi := 0
    cfg_tud_vendor := 0
    cfg_tud_hid_ep_bufsize := 64
    cfg_tuh_enumeration_bufsize := 256
    cfg_tuh_hub := hub
    cfg_tuh_cdc := 0
    cfg_tuh_hid := 4
    cfg_tuh_msc := 0
    cfg_tuh_vendor := 0
    cfg_tuh_device_max := derive_host_device_capacity hub }

/-- Every option name the header defines, in source order. -/
def exposed_option_names : List String :=
  ["CFG_TUSB_MCU", "CFG_TUSB_OS", "CFG_TUSB_DEBUG",
   "CFG_TUD_ENABLED", "CFG_TUH_ENABLED", "CFG_TUD_MAX_SPEED",
   "CFG_TUSB_MEM_SECTION", "CFG_TUSB_MEM_ALIGN",
   "CFG_TUD_ENDPOINT0_SIZE",
   "CFG_TUD_HID", "CFG_TUD_CDC", "CFG_TUD_MSC", "CFG_TUD_MIDI",
   "CFG_TUD_VENDOR", "CFG_TUD_HID_EP_BUFSIZE",
   "CFG_TUH_ENUMERATION_BUFSIZE",
   "CFG_TUH_HUB", "CFG_TUH_CDC", "CFG_TUH_HID", "CFG_TUH_MSC",
   "CFG_TUH_VENDOR", "CFG_TUH_DEVICE_MAX"]

/-- The device-role class-count options of lines 66-71, one per class
family defined there. -/
def device_class_count_options : List String :=
  ["CFG_TUD_HID", "CFG_TUD_CDC", "CFG_TUD_MSC", "CFG_TUD_MIDI",
   "CFG_TUD_VENDOR"]

/-- The host-role class-count options other than the hub count, lines
84-87. -/
def host_nonhub_class_count_options : List String :=
  ["CFG_TUH_CDC", "CFG_TUH_HID", "CFG_TUH_MSC", "CFG_TUH_VENDOR"]

/-- C1: the derived host device capacity is a pure function of the hub count
alone: for every hub_count > 0 it is 4, for hub_count = 0 it is 1, and in the
resolved configuration CFG_TUH_DEVICE_MAX is exactly this function applied to
the resolved CFG_TUH_HUB, whatever the overrides and hints are. -/
theorem derive_capacity_pure_of_hub_count (n : Nat) (hn : 0 < n) :
    derive_host_device_capacity n = 4 ∧
    derive_host_device_capacity 0 = 1 ∧
    ∀ (ov : Overrides) (h : Hints),
      (resolveConfig ov h).cfg_tuh_device_max =
        derive_host_device_capacity (resolveConfig ov h).cfg_tuh_hub := by
  refine ⟨?_, rfl, fun ov h => rfl⟩
  simp [derive_host_device_capacity, Nat.pos_iff_ne_zero.mp hn]

/-- Witness for C1 at hub_count = 3. -/
theorem derive_capacity_pure_of_hub_count_witness :
    derive_host_device_capacity 3 = 4 ∧
    derive_host_device_capacity 0 = 1 ∧
    ∀ (ov : Overrides) (h : Hints),
      (resolveConfig ov h).cfg_tuh_device_max =
        derive_host_device_capacity (resolveConfig ov h).cfg_tuh_hub :=
  derive_capacity_pure_of_hub_count 3 (by decide)

/-- C2: for every option with both an external override and a default rule
(MCU identity, OS, debug level, memory section attribute, memory alignment,
endpoint-0 size), a supplied external value is the resolved value; in
particular the platform resolution ignores the hint list entirely when the
MCU identity is overridden. -/
theorem override_wins_over_default (m : MCU) (os : OS) (d a e : Nat)
    (s : String) (h : Hints) :
    resolve_platform (some m) h = m ∧
    resolve_os (some os) = os ∧
    resolve_debug_level (some d) = d ∧
    resolve_mem_section (some s) = s ∧
    resolve_mem_align (some a) = a ∧
    resolve_endpoint0_size (some e) = e :=
  ⟨rfl, rfl, rfl, rfl, rfl, rfl⟩

/-- C3: with no external MCU override, each platform hint alone yields its
mapped profile (SAMD to SAMD51, RP2040 to RP2040, ESP32 to ESP32S2), and no
hint at all yields the OPT_MCU_NONE sentinel value rather than any failure:
resolve_platform is total. -/
theorem resolve_platform_hint_mapping :
    resolve_platform none ⟨true, false, false⟩ = MCU.OPT_MCU_SAMD51 ∧
    resolve_platform none ⟨false, true, false⟩ = MCU.OPT_MCU_RP2040 ∧
    resolve_platform none ⟨false, false, true⟩ = MCU.OPT_MCU_ESP32S2 ∧
    resolve_platform none ⟨false, false, false⟩ = MCU.OPT_MCU_NONE :=
  ⟨rfl, rfl, rfl, rfl⟩

/-- C4: the device-role and host-role enabled flags are unconditionally 1 in
every resolved configuration; the header defines them outside any ifndef
guard, so no field of Overrides can reach them. -/
theorem role_flags_fixed_enabled (ov : Overrides) (h : Hints) :
    (resolveConfig ov h).cfg_tud_enabled = 1 ∧
    (resolveConfig ov h).cfg_tuh_enabled = 1 :=
  ⟨rfl, rfl⟩

/-- C5 counterexample: the claim counts four device-role class-count limits
and three host-role non-hub class-count limits, but the header defines five
device-role class counts (HID, CDC, MSC, MIDI, VENDOR) and four host-role
non-hub class counts (CDC, HID, MSC, VENDOR). -/
theorem interface_count_claim_false :
    ¬ (device_class_count_options.length = 4 ∧
       host_nonhub_class_count_options.length = 3) := by
  decide

/-- C5 amended: the exposed constant set contains, for the device role, one
endpoint-0 size, five class-count limits (one per class family) and one
per-class transfer-buffer size, and for the host role one enumeration-buffer
size, one hub-count limit, four non-hub class-count limits and one derived
device-capacity limit. -/
theorem interface_constant_counts :
    device_class_count_options.length = 5 ∧
    host_nonhub_class_count_options.length = 4 ∧
    "CFG_TUD_ENDPOINT0_SIZE" ∈ exposed_option_names ∧
    "CFG_TUD_HID_EP_BUFSIZE" ∈ exposed_option_names ∧
    "CFG_TUH_ENUMERATION_BUFSIZE" ∈ exposed_option_names ∧
    "CFG_TUH_HUB" ∈ exposed_option_names ∧
    "CFG_TUH_DEVICE_MAX" ∈ exposed_option_names ∧
    (∀ n, n ∈ device_class_count_options → n ∈ exposed_option_names) ∧
    (∀ n, n ∈ host_nonhub_class_count_options → n ∈ exposed_option_names) := by
  decide

/-- C6 counterexample: with the SAMD and RP2040 hints simultaneously true and
no external MCU override, the resolver does not flag any conflict; it
silently yields OPT_MCU_SAMD51, exactly what the SAMD hint alone yields,
resolving the ambiguity by hint-list order. -/
theorem hint_conflict_not_flagged :
    resolve_platform none ⟨true, true, false⟩ = MCU.OPT_MCU_SAMD51 ∧
    resolve_platform none ⟨true, true, false⟩ =
      resolve_platform none ⟨true, false, false⟩ := ⟨rfl, rfl⟩

/-- C6 amended: when more than one platform hint is simultaneously true and
no external MCU override is supplied, the resolver silently resolves the
conflict by hint-list order (SAMD before RP2040 before ESP32) and emits no
diagnostic: for every conflicting hint state the result is the profile of
the first true hint in that order. The hypothesis enumerates every way two
hints can be simultaneously true. -/
theorem hint_conflict_resolved_by_order (h : Hints)
    (hc : (h.arduino_arch_samd = true ∧ h.arduino_arch_rp2040 = true) ∨
          (h.arduino_arch_samd = true ∧ h.arduino_arch_esp32 = true) ∨
          (h.arduino_arch_rp2040 = true ∧ h.arduino_arch_esp32 = true)) :
    resolve_platform none h =
      (if h.arduino_arch_samd then MCU.OPT_MCU_SAMD51
       else if h.arduino_arch_rp2040 then MCU.OPT_MCU_RP2040
       else MCU.OPT_MCU_ESP32S2) := by
  obtain ⟨s, r, e⟩ := h
  cases s <;> cases r <;> cases e <;>
    simp_all [resolve_platform]

/-- Witness for C6 amended, at the build environment with the SAMD and ESP32
hints simultaneously set. -/
theorem hint_conflict_resolved_by_order_witness :
    resolve_platform none ⟨true, false, true⟩ =
      (if (true : Bool) then MCU.OPT_MCU_SAMD51
       else if (false : Bool) then MCU.OPT_MCU_RP2040
       else MCU.OPT_MCU_ESP32S2) :=
  hint_conflict_resolved_by_order ⟨true, false, true⟩
    (Or.inr (Or.inl ⟨rfl, rfl⟩))

/-- C7: the control endpoint-0 max packet size resolves to 64 when no
external override is supplied, and to the override value, for every override
value and in particular for 8, when one is supplied. -/
theorem endpoint0_size_default_and_override :
    resolve_endpoint0_size none = 64 ∧
    resolve_endpoint0_size (some 8) = 8 ∧
    ∀ e : Nat, resolve_endpoint0_size (some e) = e :=
  ⟨rfl, rfl, fun e => rfl⟩

/-- C8: with no external override, the OS option resolves to the OPT_OS_NONE
sentinel, the debug level to 0, the memory placement attribute to the empty
attribute, and the memory alignment to 4 bytes. -/
theorem common_option_defaults :
    resolve_os none = OS.OPT_OS_NONE ∧
    resolve_debug_level none = 0 ∧
    resolve_mem_section none = "" ∧
    resolve_mem_align none = 4 :=
  ⟨rfl, rfl, rfl, rfl⟩

/-- C9: in this configuration the hub count is the fixed literal 0, so with
no external overrides (and under any hint state) the resolved host device
capacity CFG_TUH_DEVICE_MAX is 1. -/
theorem no_hub_gives_capacity_one (h : Hints) :
    (resolveConfig no_overrides h).cfg_tuh_hub = 0 ∧
    (resolveConfig no_overrides h).cfg_tuh_device_max = 1 :=
  ⟨rfl, rfl⟩

/-- C10: the header exposes CFG_TUD_MAX_SPEED as part of the constant set and
fixes it unconditionally to OPT_MODE_DEFAULT_SPEED, with no override
mechanism: its resolved value is the same for every override record and every
hint state. -/
theorem max_speed_fixed_default :
    "CFG_TUD_MAX_SPEED" ∈ exposed_option_names ∧
    ∀ (ov : Overrides) (h : Hints),
      (resolveConfig ov h).cfg_tud_max_speed = Speed.OPT_MODE_DEFAULT_SPEED := by
  exact ⟨by decide, fun ov h => rfl⟩

end TUSB
